import Mathlib

/-!
Verification of the cyberapi transactional KV data layer.

Shallow embedding of `src/db.ts` and the request handlers that call it
(`src/api/handlers/timeEntries.ts`, the timer handlers, and
`src/api/handlers/projects.ts`).  Keys of the Deno KV store are lists of
strings, values are a sum of the record types the code stores, and the store
itself is an association list kept in insertion order.  JavaScript numbers
are modelled exactly by rationals; for the profit-distribution code, which
reads fields off scanned index records that do not carry them, `JsNum` adds
a `nan` point that also stands for an `undefined` operand, since every
arithmetic use of an undefined field in that code produces `NaN`.
-/

namespace CyberApi

/-- A Deno KV key: a list of string parts (the code only uses string parts). -/
abbrev Key := List String

/-- The `User` record (fields relevant to the data layer: `types.ts`). -/
structure User where
  id : String
  email : String
  deriving DecidableEq

/-- The `Project` record (`types.ts`; the create handler also sets
`profitSharingPercentage`, which `distributeProjectProfits` reads). -/
structure Project where
  id : String
  name : String
  budget : ℚ
  remainingBudget : ℚ
  ownerId : String
  profitSharingEnabled : Bool
  profitSharingPercentage : ℚ
  bonusPool : ℚ
  deriving DecidableEq

/-- The `ProjectMember` record (`types.ts`). -/
structure ProjectMember where
  projectId : String
  userId : String
  role : String
  hourlyRate : ℚ
  totalHours : ℚ
  deriving DecidableEq

/-- The `TimeEntry` record, with the fields the code actually constructs
(`isActive` flag, cost impact, ISO date strings). -/
structure TimeEntry where
  id : String
  projectId : String
  userId : String
  description : String
  hours : ℚ
  costImpact : ℚ
  date : String
  isActive : Bool
  createdAt : String
  updatedAt : String
  deriving DecidableEq

/-- The `ActiveTimer` record (`types.ts`). -/
structure ActiveTimer where
  id : String
  userId : String
  projectId : String
  description : String
  startedAt : String
  updatedAt : String
  deriving DecidableEq

/-- The `ProjectInvitation` record (fields relevant to its keys). -/
structure ProjectInvitation where
  id : String
  projectId : String
  inviteeEmail : String
  deriving DecidableEq

/-- The `ProfitShare` record (fields relevant to its keys). -/
structure ProfitShare where
  id : String
  projectId : String
  userId : String
  amount : ℚ
  deriving DecidableEq

/-- The `BudgetTransaction` record (`types.ts`). -/
structure BudgetTransaction where
  id : String
  projectId : String
  amount : ℚ
  txType : String
  deriving DecidableEq

/-- JavaScript numbers as used by the modelled code: an exact rational or
`NaN`.  `nan` also models an `undefined` operand, because the only things
the code does with a possibly-undefined field are `+`, `*` and `/`, all of
which turn `undefined` into `NaN` exactly as they propagate `NaN`. -/
inductive JsNum where
  | num (q : ℚ)
  | nan
  deriving DecidableEq

/-- JS addition (`NaN`/`undefined` absorbing). -/
def jsAdd : JsNum → JsNum → JsNum
  | .num a, .num b => .num (a + b)
  | _, _ => .nan

/-- JS multiplication (`NaN`/`undefined` absorbing). -/
def jsMul : JsNum → JsNum → JsNum
  | .num a, .num b => .num (a * b)
  | _, _ => .nan

/-- JS division.  Division by zero gives an infinity in JS; the modelled
code only divides by `totalHours` behind a `totalHours === 0` guard, so the
zero-divisor case is unreachable and collapsed to `nan` here. -/
def jsDiv : JsNum → JsNum → JsNum
  | .num a, .num b => if b = 0 then .nan else .num (a / b)
  | _, _ => .nan

/-- The `Earnings` record.  `distributeProjectProfits` can compute `NaN`
amounts, so the monetary fields are `JsNum`. -/
structure Earnings where
  id : String
  userId : String
  projectId : String
  payPeriodId : String
  regularHours : JsNum
  regularEarnings : JsNum
  bonusEarnings : JsNum
  totalEarnings : JsNum
  createdAt : String
  updatedAt : String
  deriving DecidableEq

/-- The `ProjectFinancialSummary` record (fields relevant to its keys and the
date filter of the reader). -/
structure ProjectFinancialSummary where
  id : String
  projectId : String
  periodStartDate : String
  periodEndDate : String
  deriving DecidableEq

/-- The `UserFinancialSummary` record (fields relevant to its keys and the
date filter of the reader). -/
structure UserFinancialSummary where
  id : String
  userId : String
  periodStartDate : String
  periodEndDate : String
  deriving DecidableEq

/-- The values stored in the KV store.  `ptr` models the pointer-only index
records such as `{ userId }`, `{ timerId }`, `{ entryId }`,
`{ transactionId }`; `ptr2` models the two-field member index
`{ userId, role }`. -/
inductive Value where
  | user (u : User)
  | project (p : Project)
  | member (m : ProjectMember)
  | timeEntry (e : TimeEntry)
  | activeTimer (t : ActiveTimer)
  | invitation (i : ProjectInvitation)
  | profitShare (sh : ProfitShare)
  | budgetTx (b : BudgetTransaction)
  | earningsRec (e : Earnings)
  | projSummary (ps : ProjectFinancialSummary)
  | userSummary (us : UserFinancialSummary)
  | ptr (id : String)
  | ptr2 (a b : String)
  deriving DecidableEq

/-- The KV store: an association list from keys to values, at most one
binding per key, kept in insertion order. -/
abbrev KV := List (Key × Value)

/-- Model of `kv.get`: the value currently bound to a key, if any. -/
def kvGet : KV → Key → Option Value
  | [], _ => none
  | p :: rest, k => if p.1 = k then some p.2 else kvGet rest k

/-- Model of `kv.delete`: remove any binding of the key. -/
def kvDelete : KV → Key → KV
  | [], _ => []
  | p :: rest, k => if p.1 = k then kvDelete rest k else p :: kvDelete rest k

/-- Model of `kv.set`: bind the key, replacing any previous binding. -/
def kvSet (s : KV) (k : Key) (v : Value) : KV :=
  kvDelete s k ++ [(k, v)]

/-- Does a key lie under a given key prefix?  Deno KV compares keys part by
part, so `["a"]` is not a prefix of `["ab", x]`. -/
def underKey : Key → Key → Bool
  | [], _ => true
  | _, [] => false
  | a :: pre, b :: k => a == b && underKey pre k

/-- Model of `kv.list({ prefix })`: the values of all bindings whose key lies under
the given prefix, in store order. -/
def kvScan (s : KV) (pre : Key) : List Value :=
  (s.filter (fun p => underKey pre p.1)).map Prod.snd

/-- One write or delete inside an atomic batch. -/
inductive Mut where
  | set (k : Key) (v : Value)
  | del (k : Key)

/-- Apply one mutation. -/
def applyMut (s : KV) : Mut → KV
  | .set k v => kvSet s k v
  | .del k => kvDelete s k

/-- Model of `kv.atomic() ... .commit()`: if every `check(key, versionstamp: null)`
precondition holds (the key is absent), apply all mutations in order and
succeed; otherwise apply nothing and fail.  The modelled code only ever
uses absence checks. -/
def commitOp (s : KV) (checksAbsent : List Key) (muts : List Mut) : Option KV :=
  if checksAbsent.all (fun k => (kvGet s k).isNone) then
    some (muts.foldl applyMut s)
  else none

/-! ## The data-layer operations of `src/db.ts`

Each operation returns its result together with the store it leaves behind;
a thrown JS `Error` is modelled as `Except.error` carrying the message
string, paired with whatever store the operation had produced up to the
throw. -/

/-- Model of `createUser`, commit phase: the atomic batch with its
`check(emailIndexKey, versionstamp: null)` precondition; a rejected commit
throws the generic database-error message (`src/db.ts` line 36). -/
def createUserCommit (s : KV) (u : User) : (Except String Unit) × KV :=
  match commitOp s [["user_email", u.email]]
      [.set ["user", u.id] (.user u),
       .set ["user_email", u.email] (.ptr u.id)] with
  | some s1 => (.ok (), s1)
  | none => (.error "Failed to create user: Database error", s)

/-- Model of `createUser`: fast-path read of the email index, then the commit.
In a sequential run read and commit see the same store; the read phase is
split out so that the interleaving with a concurrent writer can be stated. -/
def createUser (s : KV) (u : User) : (Except String Unit) × KV :=
  if (kvGet s ["user_email", u.email]).isSome then
    (.error "Email already exists", s)
  else createUserCommit s u

/-- Model of `createProject`: one atomic commit writing the project and its owner
index. -/
def createProject (s : KV) (p : Project) : (Except String Project) × KV :=
  match commitOp s []
      [.set ["project", p.id] (.project p),
       .set ["project_owner", p.ownerId, p.id] (.ptr p.id)] with
  | some s1 => (.ok p, s1)
  | none => (.error "Failed to create project", s)

/-- Model of `getProjectById`. -/
def getProjectById (s : KV) (pid : String) : Option Project :=
  match kvGet s ["project", pid] with
  | some (.project p) => some p
  | _ => none

/-- Model of `updateProjectBudget`: reads the project, adds the delta to
`remainingBudget` in memory and writes it back with a plain `kv.set` — no
version check and no atomic batch. -/
def updateProjectBudget (s : KV) (pid : String) (amount : ℚ) : KV :=
  match kvGet s ["project", pid] with
  | some (.project p) =>
      kvSet s ["project", pid]
        (.project { p with remainingBudget := p.remainingBudget + amount })
  | _ => s

/-- Model of `addProjectMember`: a single `kv.set` of the member record. -/
def addProjectMember (s : KV) (m : ProjectMember) : KV :=
  kvSet s ["project_member", m.projectId, m.userId] (.member m)

/-- Model of `getProjectMember`. -/
def getProjectMember (s : KV) (pid uid : String) : Option ProjectMember :=
  match kvGet s ["project_member", pid, uid] with
  | some (.member m) => some m
  | _ => none

/-- Model of `createProjectInvitation`, first `kv.set`: the primary record.  The
function performs two separate `kv.set` calls, i.e. two store commits, so
this intermediate store is observable. -/
def createProjectInvitationStep1 (s : KV) (inv : ProjectInvitation) : KV :=
  kvSet s ["project_invitation", inv.id] (.invitation inv)

/-- Model of `createProjectInvitation`: primary record, then — in a second, separate
commit — the email index. -/
def createProjectInvitation (s : KV) (inv : ProjectInvitation) : KV :=
  kvSet (createProjectInvitationStep1 s inv)
    ["project_invitation_email", inv.inviteeEmail, inv.id] (.ptr inv.id)

/-- Model of `createProfitShare`, first `kv.set`: the primary record (again one of
two separate commits). -/
def createProfitShareStep1 (s : KV) (sh : ProfitShare) : KV :=
  kvSet s ["profit_share", sh.id] (.profitShare sh)

/-- Model of `createProfitShare`: primary record, then — in a second, separate
commit — the project index. -/
def createProfitShare (s : KV) (sh : ProfitShare) : KV :=
  kvSet (createProfitShareStep1 s sh)
    ["profit_share_project", sh.projectId, sh.id] (.ptr sh.id)

/-- Model of `createTimeEntry`: one atomic commit writing the entry and its user and
project indexes.  The batch carries no precondition. -/
def createTimeEntry (s : KV) (e : TimeEntry) : (Except String TimeEntry) × KV :=
  match commitOp s []
      [.set ["time", e.id] (.timeEntry e),
       .set ["time_user", e.userId, e.date, e.id] (.ptr e.id),
       .set ["time_project", e.projectId, e.date, e.id] (.ptr e.id)] with
  | some s1 => (.ok e, s1)
  | none => (.error "Failed to create time entry", s)

/-- Model of `timeEntryHandlers.createTimeEntry` (`src/api/handlers/timeEntries.ts`):
checks membership, builds the entry with
`costImpact = entryData.hours * member.hourlyRate`, and calls the db
`createTimeEntry`.  `freshId` is the generated UUID and `now` the clock
reading. -/
def handlerCreateTimeEntry (s : KV) (uid pid desc : String) (hours : ℚ)
    (date freshId now : String) : (Except String TimeEntry) × KV :=
  match getProjectMember s pid uid with
  | none => (.error "User is not a member of this project", s)
  | some m =>
      createTimeEntry s
        { id := freshId, projectId := pid, userId := uid, description := desc,
          hours := hours, costImpact := hours * m.hourlyRate, date := date,
          isActive := false, createdAt := now, updatedAt := now }

/-- Model of `getTimeEntryById`: reads the `time/{id}` key. -/
def getTimeEntryById (s : KV) (id : String) : Option TimeEntry :=
  match kvGet s ["time", id] with
  | some (.timeEntry e) => some e
  | _ => none

/-- Model of `startTimer` (`src/db.ts` lines 408–443): one atomic commit writing the
timer, the user-singleton index and the project index.  The batch carries
no `check` precondition at all. -/
def startTimer (s : KV) (uid pid desc freshId now : String) :
    (Except String ActiveTimer) × KV :=
  let t : ActiveTimer :=
    { id := freshId, userId := uid, projectId := pid, description := desc,
      startedAt := now, updatedAt := now }
  match commitOp s []
      [.set ["active_timer", freshId] (.activeTimer t),
       .set ["active_timer_user", uid] (.ptr freshId),
       .set ["active_timer_project", pid, freshId] (.ptr freshId)] with
  | some s1 => (.ok t, s1)
  | none => (.error "Failed to start timer", s)

/-- Model of `getActiveTimerByUser`: follows the singleton index to the timer
record. -/
def getActiveTimerByUser (s : KV) (uid : String) : Option ActiveTimer :=
  match kvGet s ["active_timer_user", uid] with
  | some (.ptr tid) =>
      match kvGet s ["active_timer", tid] with
      | some (.activeTimer t) => some t
      | _ => none
  | _ => none

/-- Model of `timerHandlers.startTimer`: rejects when a prior read finds an active
timer, checks membership, then calls the db `startTimer`.  The read phase
is separate from the commit, which itself carries no precondition. -/
def handlerStartTimer (s : KV) (uid pid desc freshId now : String) :
    (Except String ActiveTimer) × KV :=
  match getActiveTimerByUser s uid with
  | some _ => (.error "User already has an active timer", s)
  | none =>
      match getProjectMember s pid uid with
      | none => (.error "User is not a member of this project", s)
      | some _ => startTimer s uid pid desc freshId now

/-- Model of `stopTimer` (`src/db.ts` lines 445–496): resolves the member rate,
builds the resulting time entry, and in one atomic commit writes the entry
with both its indexes and deletes the timer record and both its indexes.
`hours` stands for the clock computation
`(now - startedAt) / (1000*60*60)`.  The code logs and ignores the commit
result and returns the entry regardless. -/
def stopTimer (s : KV) (timer : ActiveTimer) (hours : ℚ) (freshId now : String) :
    (Except String TimeEntry) × KV :=
  match getProjectMember s timer.projectId timer.userId with
  | none => (.error "User is not a member of this project", s)
  | some m =>
      let e : TimeEntry :=
        { id := freshId, projectId := timer.projectId, userId := timer.userId,
          description := timer.description, hours := hours,
          costImpact := hours * m.hourlyRate, date := timer.startedAt,
          isActive := false, createdAt := now, updatedAt := now }
      match commitOp s []
          [.set ["time", freshId] (.timeEntry e),
           .set ["time_user", e.userId, e.date, e.id] (.ptr e.id),
           .set ["time_project", e.projectId, e.date, e.id] (.ptr e.id),
           .del ["active_timer", timer.id],
           .del ["active_timer_user", timer.userId],
           .del ["active_timer_project", timer.projectId, timer.id]] with
      | some s1 => (.ok e, s1)
      | none => (.ok e, s)

/-- Model of `completeTimeEntry` (`src/db.ts` lines 659–693): looks up the entry,
recomputes `costImpact` from the current member rate, writes the updated
entry — under the key prefix `timeEntries`, not `time` — and then calls
`updateProjectBudget` with `-costImpact`. -/
def completeTimeEntry (s : KV) (id now : String) : (Except String TimeEntry) × KV :=
  match getTimeEntryById s id with
  | none => (.error "Time entry not found", s)
  | some e =>
      match getProjectMember s e.projectId e.userId with
      | none => (.error "User is not a member of this project", s)
      | some m =>
          let costImpact := e.hours * m.hourlyRate
          let updated : TimeEntry :=
            { e with isActive := false, costImpact := costImpact, updatedAt := now }
          let s1 := kvSet s ["timeEntries", id] (.timeEntry updated)
          match getProjectById s1 e.projectId with
          | none => (.error "Project not found", s1)
          | some p => (.ok updated, updateProjectBudget s1 p.id (-costImpact))

/-- Model of `getBudgetTransactions`: scans the project index and dereferences each
pointer to the primary transaction record. -/
def getBudgetTransactions (s : KV) (pid : String) : List BudgetTransaction :=
  (kvScan s ["budget_transaction_project", pid]).foldr
    (fun v acc =>
      match v with
      | .ptr tid =>
          match kvGet s ["budget_transaction", tid] with
          | some (.budgetTx b) => b :: acc
          | _ => acc
      | _ => acc) []

/-- The ledger sum `Σ (budget transactions)` of a project. -/
def budgetTxSum (s : KV) (pid : String) : ℚ :=
  (getBudgetTransactions s pid).foldl (fun a b => a + b.amount) 0

/-- Model of `createProjectFinancialSummary`: a single `kv.set` under the key
prefix `project_summary`. -/
def createProjectFinancialSummary (s : KV) (ps : ProjectFinancialSummary) : KV :=
  kvSet s ["project_summary", ps.projectId, ps.periodStartDate, ps.id]
    (.projSummary ps)

/-- Model of `getProjectFinancialSummaries`: scans the key prefix
`project_financial_summary` (not `project_summary`), with the optional
date-range filter. -/
def getProjectFinancialSummaries (s : KV) (pid : String)
    (startDate endDate : Option String) : List ProjectFinancialSummary :=
  (kvScan s ["project_financial_summary", pid]).foldr
    (fun v acc =>
      match v with
      | .projSummary ps =>
          match startDate, endDate with
          | some sd, some ed =>
              if sd ≤ ps.periodStartDate ∧ ps.periodEndDate ≤ ed then ps :: acc
              else acc
          | _, _ => ps :: acc
      | _ => acc) []

/-- Model of `createUserFinancialSummary`: a single `kv.set` under the key prefix
`user_summary`. -/
def createUserFinancialSummary (s : KV) (us : UserFinancialSummary) : KV :=
  kvSet s ["user_summary", us.userId, us.periodStartDate, us.id]
    (.userSummary us)

/-- Model of `getUserFinancialSummaries`: scans the key prefix
`user_financial_summary` (not `user_summary`), with the optional date-range
filter. -/
def getUserFinancialSummaries (s : KV) (uid : String)
    (startDate endDate : Option String) : List UserFinancialSummary :=
  (kvScan s ["user_financial_summary", uid]).foldr
    (fun v acc =>
      match v with
      | .userSummary us =>
          match startDate, endDate with
          | some sd, some ed =>
              if sd ≤ us.periodStartDate ∧ us.periodEndDate ≤ ed then us :: acc
              else acc
          | _, _ => us :: acc
      | _ => acc) []

/-! ## `distributeProjectProfits` (`src/db.ts` lines 564–635)

The scan `kv.list<TimeEntry>({ prefix: ["time_project", projectId] })`
iterates over the *index* records, whose stored values are `{ entryId }`
pointers; the code nonetheless reads `.hours`, `.costImpact` and `.userId`
off them.  Reading a missing field gives `undefined`, which every following
arithmetic step turns into `NaN` (modelled by `JsNum.nan`), and which as a
KV key part makes the earnings batch construction throw a `TypeError`. -/

/-- Model of `entry.value.hours` as read by the scan loop. -/
def hoursOf : Value → JsNum
  | .timeEntry e => .num e.hours
  | _ => .nan

/-- Model of `entry.costImpact` as read by the profit reduction. -/
def costImpactOf : Value → JsNum
  | .timeEntry e => .num e.costImpact
  | _ => .nan

/-- Model of `entry.userId` as read when building the distributions (`none` is
`undefined`). -/
def userIdOf : Value → Option String
  | .timeEntry e => some e.userId
  | _ => none

/-- The earnings writes of the distribution batch: for each distribution,
the primary earnings record plus its user and project indexes, with the
pre-generated ids `freshIds`. -/
def buildEarningsMuts : List (Option String × JsNum) → List String →
    String → String → String → List Mut
  | [], _, _, _, _ => []
  | _ :: _, [], _, _, _ => []
  | (none, _) :: _, _ :: _, _, _, _ => []
  | (some uid, amt) :: rest, fid :: fids, pid, ppid, now =>
      let e : Earnings :=
        { id := fid, userId := uid, projectId := pid, payPeriodId := ppid,
          regularHours := .num 0, regularEarnings := .num 0,
          bonusEarnings := amt, totalEarnings := amt,
          createdAt := now, updatedAt := now }
      .set ["earnings", fid] (.earningsRec e) ::
      .set ["earnings_user", uid, ppid, fid] (.ptr fid) ::
      .set ["earnings_project", pid, ppid, fid] (.ptr fid) ::
      buildEarningsMuts rest fids pid ppid now

/-- Model of `distributeProjectProfits`.  `freshIds` are the generated earnings
UUIDs, `payPeriodId` the generated pay-period id.  A distribution with an
undefined `userId` would put `undefined` into a KV key, which Deno KV
rejects with a `TypeError` before anything is written. -/
def distributeProjectProfits (s : KV) (pid : String) (freshIds : List String)
    (payPeriodId now : String) : (Except String JsNum) × KV :=
  match getProjectById s pid with
  | none => (.error "Project not found", s)
  | some p =>
      if p.profitSharingEnabled then
        let scanned := kvScan s ["time_project", pid]
        let totalHours := scanned.foldl (fun acc v => jsAdd acc (hoursOf v)) (.num 0)
        if totalHours = JsNum.num 0 then
          (.error "No time entries found", s)
        else
          let totalProfit :=
            jsMul (scanned.foldl (fun acc v => jsAdd acc (costImpactOf v)) (.num 0))
              (.num p.profitSharingPercentage)
          let distributions := scanned.map
            (fun v => (userIdOf v, jsMul (jsDiv (hoursOf v) totalHours) totalProfit))
          if distributions.all (fun d => d.1.isSome) then
            match commitOp s []
                (buildEarningsMuts distributions freshIds pid payPeriodId now) with
            | some s1 => (.ok totalProfit, s1)
            | none => (.error "Failed to distribute profits", s)
          else
            (.error "TypeError: invalid KV key part", s)
      else
        (.error "Profit sharing is not enabled for this project", s)

/-! ## Sample records and runs used by the concrete theorems -/

/-- A sample project as the create handler builds it
(`remainingBudget` initialised to `budget`, sharing enabled at 50%). -/
def projP1 : Project :=
  { id := "p1", name := "P", budget := 1000, remainingBudget := 1000,
    ownerId := "owner", profitSharingEnabled := true,
    profitSharingPercentage := 1/2, bonusPool := 0 }

/-- A sample member of `projP1` with hourly rate 50. -/
def memberU1 : ProjectMember :=
  { projectId := "p1", userId := "u1", role := "MEMBER", hourlyRate := 50,
    totalHours := 0 }

/-- A sample time entry for `projP1` by `u1`: 2 hours at rate 50, hence
cost impact 100, as the handler computes it. -/
def entryE1 : TimeEntry :=
  { id := "e1", projectId := "p1", userId := "u1", description := "work",
    hours := 2, costImpact := 100, date := "D", isActive := false,
    createdAt := "T", updatedAt := "T" }

/-- A sample invitation. -/
def invI1 : ProjectInvitation :=
  { id := "i1", projectId := "p1", inviteeEmail := "a@b.c" }

/-- A sample profit share. -/
def shS1 : ProfitShare :=
  { id := "s1", projectId := "p1", userId := "u1", amount := 10 }

/-- A sample user. -/
def userU1 : User := { id := "u1", email := "a@b.c" }

/-- A store in which a concurrent writer has already taken the email
`a@b.c` (index points at user `u2`). -/
def storeEmailTaken : KV := kvSet [] ["user_email", "a@b.c"] (.ptr "u2")

/-- The store after `createProject` with `projP1` and `addProjectMember`
with `memberU1`: a reachable state with budget = remainingBudget = 1000 and
member rate 50. -/
def storeProjMember : KV :=
  addProjectMember (createProject [] projP1).2 memberU1

/-- The result of the create-time-entry handler on `storeProjMember` for
2 hours of work. -/
def runC2 : (Except String TimeEntry) × KV :=
  handlerCreateTimeEntry storeProjMember "u1" "p1" "work" 2 "D" "e1" "T"

/-- All ActiveTimer primary records of a user present in a store. -/
def activeTimerRecordsOfUser (s : KV) (uid : String) : List ActiveTimer :=
  s.foldr
    (fun p acc =>
      match p.2 with
      | .activeTimer t => if t.userId = uid then t :: acc else acc
      | _ => acc) []

/-- Store holding only the membership of `u1` in `p1`: the state on which
the read phases of two concurrent `startTimer` calls for `u1` both run. -/
def storeMemberOnly : KV := addProjectMember [] memberU1

/-- First concurrent start: its commit applies to `storeMemberOnly`. -/
def runStart1 : (Except String ActiveTimer) × KV :=
  startTimer storeMemberOnly "u1" "p1" "" "t1" "T1"

/-- Second concurrent start: its read also saw `storeMemberOnly`; its
commit applies to the store left by the first commit. -/
def runStart2 : (Except String ActiveTimer) × KV :=
  startTimer runStart1.2 "u1" "p1" "" "t2" "T2"

/-- The timer record the first start commits. -/
def timerT1 : ActiveTimer :=
  { id := "t1", userId := "u1", projectId := "p1", description := "",
    startedAt := "T1", updatedAt := "T1" }

/-- The time entry `stopTimer` constructs (rate resolved from the member
record). -/
def stopEntry (timer : ActiveTimer) (hours : ℚ) (fid now : String)
    (rate : ℚ) : TimeEntry :=
  { id := fid, projectId := timer.projectId, userId := timer.userId,
    description := timer.description, hours := hours,
    costImpact := hours * rate, date := timer.startedAt,
    isActive := false, createdAt := now, updatedAt := now }

/-- The store produced by `stopTimer`'s single atomic commit: the three
entry writes followed by the three timer deletes. -/
def stopStore (s : KV) (timer : ActiveTimer) (hours : ℚ) (fid now : String)
    (rate : ℚ) : KV :=
  kvDelete (kvDelete (kvDelete (kvSet (kvSet (kvSet s
    ["time", fid] (.timeEntry (stopEntry timer hours fid now rate)))
    ["time_user", timer.userId, timer.startedAt, fid] (.ptr fid))
    ["time_project", timer.projectId, timer.startedAt, fid] (.ptr fid))
    ["active_timer", timer.id])
    ["active_timer_user", timer.userId])
    ["active_timer_project", timer.projectId, timer.id]

/-- A 6-hour time entry by `ua` on `p1` with cost impact 1200. -/
def entryA : TimeEntry :=
  { id := "ea", projectId := "p1", userId := "ua", description := "",
    hours := 6, costImpact := 1200, date := "D", isActive := false,
    createdAt := "T", updatedAt := "T" }

/-- A 4-hour time entry by `ub` on `p1` with cost impact 800. -/
def entryB : TimeEntry :=
  { id := "eb", projectId := "p1", userId := "ub", description := "",
    hours := 4, costImpact := 800, date := "D", isActive := false,
    createdAt := "T", updatedAt := "T" }

/-- Reachable store for the distribution scenario: `projP1` (sharing
enabled at 50%) with the 6-hour and 4-hour entries, whose cost impacts sum
to 2000, so the intended pool is 1000 and the intended shares 600/400. -/
def storeC4 : KV :=
  (createTimeEntry (createTimeEntry (createProject [] projP1).2 entryA).2 entryB).2

/-- The store after the C2 run: project, member and the committed 2-hour
entry `e1`. -/
def storeAfterEntry : KV := runC2.2

/-- Completing `e1` on `storeAfterEntry`. -/
def runComplete : (Except String TimeEntry) × KV :=
  completeTimeEntry storeAfterEntry "e1" "T2"

/-- The member record with the hourly rate raised to 80. -/
def memberU1Rate80 : ProjectMember := { memberU1 with hourlyRate := 80 }

/-- Model of `storeAfterEntry` after the member rate was raised to 80 (an upsert via
`addProjectMember`). -/
def storeRateBumped : KV := addProjectMember storeAfterEntry memberU1Rate80

/-- Completing `e1` after the rate bump: the recomputed cost impact is
2 x 80 = 160. -/
def runComplete80 : (Except String TimeEntry) × KV :=
  completeTimeEntry storeRateBumped "e1" "T2"

/-! ## Store lemmas -/

theorem kvGet_delete (s : KV) (k k2 : Key) :
    kvGet (kvDelete s k) k2 = if k2 = k then none else kvGet s k2 := by
  induction s with
  | nil => simp [kvDelete, kvGet]
  | cons p rest ih =>
    simp only [kvDelete]
    by_cases hp : p.1 = k
    · rw [if_pos hp, ih]
      by_cases h2 : k2 = k
      · simp [h2]
      · have hpq : p.1 ≠ k2 := fun hh => h2 (hh.symm.trans hp)
        simp [kvGet, h2, hpq]
    · rw [if_neg hp]
      by_cases hq : p.1 = k2
      · have h2 : k2 ≠ k := fun hh => hp (hq.trans hh)
        simp [kvGet, hq, h2]
      · simp [kvGet, hq, ih]

theorem kvGet_set (s : KV) (k k2 : Key) (v : Value) :
    kvGet (kvSet s k v) k2 = if k2 = k then some v else kvGet s k2 := by
  unfold kvSet
  induction s with
  | nil =>
    by_cases h : k2 = k
    · simp [kvDelete, kvGet, h]
    · simp [kvDelete, kvGet, h]
      exact fun hh => h hh.symm
  | cons p rest ih =>
    simp only [kvDelete]
    by_cases hp : p.1 = k
    · rw [if_pos hp, ih]
      by_cases h2 : k2 = k
      · simp [h2]
      · have hpq : p.1 ≠ k2 := fun hh => h2 (hh.symm.trans hp)
        simp [kvGet, h2, hpq]
    · rw [if_neg hp, List.cons_append]
      by_cases hq : p.1 = k2
      · have h2 : k2 ≠ k := fun hh => hp (hq.trans hh)
        simp [kvGet, hq, h2]
      · simp [kvGet, hq, ih]

theorem filter_delete_of_not_under (s : KV) (pre k : Key)
    (h : underKey pre k = false) :
    (kvDelete s k).filter (fun p => underKey pre p.1) =
      s.filter (fun p => underKey pre p.1) := by
  induction s with
  | nil => rfl
  | cons p rest ih =>
    simp only [kvDelete]
    by_cases hp : p.1 = k
    · rw [if_pos hp, ih, List.filter_cons]
      simp [hp, h]
    · rw [if_neg hp, List.filter_cons, List.filter_cons, ih]

theorem kvScan_set_of_not_under (s : KV) (pre k : Key) (v : Value)
    (h : underKey pre k = false) : kvScan (kvSet s k v) pre = kvScan s pre := by
  unfold kvSet kvScan
  rw [List.filter_append, filter_delete_of_not_under s pre k h]
  simp [List.filter_cons, h]

/-! ## Helper lemmas -/

theorem key_ne_of_head_ne {a b : String} (l m : List String) (h : a ≠ b) :
    a :: l ≠ b :: m := by
  intro hh
  injection hh with h1 h2
  exact h h1

theorem commitOp_nil_checks (s : KV) (muts : List Mut) :
    commitOp s [] muts = some (muts.foldl applyMut s) := rfl

/-! ## C10 -/

/-- C10: `createProjectFinancialSummary` writes under the key prefix
`project_summary` while `getProjectFinancialSummaries` scans the distinct
prefix `project_financial_summary` (and likewise `user_summary` versus
`user_financial_summary`), so the written record is invisible to the
reader: the get after the create returns exactly what it returned before,
and in particular never the record just written. -/
theorem C10_summary_round_trip_misses (s : KV)
    (ps : ProjectFinancialSummary) (us : UserFinancialSummary)
    (sd ed : Option String) :
    getProjectFinancialSummaries (createProjectFinancialSummary s ps)
        ps.projectId sd ed
      = getProjectFinancialSummaries s ps.projectId sd ed ∧
    getUserFinancialSummaries (createUserFinancialSummary s us)
        us.userId sd ed
      = getUserFinancialSummaries s us.userId sd ed := by
  constructor
  · unfold getProjectFinancialSummaries createProjectFinancialSummary
    rw [kvScan_set_of_not_under]
    rfl
  · unfold getUserFinancialSummaries createUserFinancialSummary
    rw [kvScan_set_of_not_under]
    rfl

/-! ## C8 -/

/-- C8 counterexample: `createProjectInvitation` and `createProfitShare`
perform the primary write and the index write as two separate `kv.set`
commits; after the first commit (an observable store state) the primary
record exists while its index entry is absent, refuting the claim that
every entity creation writes primary and indexes in a single atomic
commit. -/
theorem C8_counterexample :
    kvGet (createProjectInvitationStep1 [] invI1) ["project_invitation", "i1"]
      = some (.invitation invI1) ∧
    kvGet (createProjectInvitationStep1 [] invI1)
      ["project_invitation_email", "a@b.c", "i1"] = none ∧
    kvGet (createProfitShareStep1 [] shS1) ["profit_share", "s1"]
      = some (.profitShare shS1) ∧
    kvGet (createProfitShareStep1 [] shS1) ["profit_share_project", "p1", "s1"]
      = none := by
  exact ⟨rfl, rfl, rfl, rfl⟩

/-- C8 (amended): creations that use `kv.atomic` — `createTimeEntry` in
particular — establish the primary record and all of its index entries
together, but `createProjectInvitation` and `createProfitShare` write the
primary record and its index entry in two separate commits, so between the
two commits the primary exists without its index entry. -/
theorem C8_amended (s : KV) (inv : ProjectInvitation) (sh : ProfitShare)
    (e : TimeEntry)
    (hinv : kvGet s ["project_invitation_email", inv.inviteeEmail, inv.id] = none)
    (hsh : kvGet s ["profit_share_project", sh.projectId, sh.id] = none) :
    (kvGet (createProjectInvitationStep1 s inv) ["project_invitation", inv.id]
        = some (.invitation inv) ∧
     kvGet (createProjectInvitationStep1 s inv)
        ["project_invitation_email", inv.inviteeEmail, inv.id] = none) ∧
    (kvGet (createProfitShareStep1 s sh) ["profit_share", sh.id]
        = some (.profitShare sh) ∧
     kvGet (createProfitShareStep1 s sh)
        ["profit_share_project", sh.projectId, sh.id] = none) ∧
    ((createTimeEntry s e).1 = .ok e ∧
     kvGet (createTimeEntry s e).2 ["time", e.id] = some (.timeEntry e) ∧
     kvGet (createTimeEntry s e).2 ["time_user", e.userId, e.date, e.id]
        = some (.ptr e.id) ∧
     kvGet (createTimeEntry s e).2 ["time_project", e.projectId, e.date, e.id]
        = some (.ptr e.id)) := by
  refine ⟨⟨?_, ?_⟩, ⟨?_, ?_⟩, ?_, ?_, ?_, ?_⟩
  · rw [createProjectInvitationStep1, kvGet_set, if_pos rfl]
  · rw [createProjectInvitationStep1, kvGet_set,
      if_neg (key_ne_of_head_ne _ _ (by decide)), hinv]
  · rw [createProfitShareStep1, kvGet_set, if_pos rfl]
  · rw [createProfitShareStep1, kvGet_set,
      if_neg (key_ne_of_head_ne _ _ (by decide)), hsh]
  · rfl
  · show kvGet (kvSet (kvSet (kvSet s _ _) _ _) _ _) _ = _
    rw [kvGet_set, if_neg (key_ne_of_head_ne _ _ (by decide)),
      kvGet_set, if_neg (key_ne_of_head_ne _ _ (by decide)),
      kvGet_set, if_pos rfl]
  · show kvGet (kvSet (kvSet (kvSet s _ _) _ _) _ _) _ = _
    rw [kvGet_set, if_neg (key_ne_of_head_ne _ _ (by decide)),
      kvGet_set, if_pos rfl]
  · show kvGet (kvSet (kvSet (kvSet s _ _) _ _) _ _) _ = _
    rw [kvGet_set, if_pos rfl]

/-- C8 witness: the amended theorem applied at the sample records over the
empty store. -/
theorem C8_amended_witness :
    (kvGet (createProjectInvitationStep1 [] invI1) ["project_invitation", "i1"]
        = some (.invitation invI1) ∧
     kvGet (createProjectInvitationStep1 [] invI1)
        ["project_invitation_email", "a@b.c", "i1"] = none) ∧
    (kvGet (createProfitShareStep1 [] shS1) ["profit_share", "s1"]
        = some (.profitShare shS1) ∧
     kvGet (createProfitShareStep1 [] shS1) ["profit_share_project", "p1", "s1"]
        = none) ∧
    ((createTimeEntry [] entryE1).1 = .ok entryE1 ∧
     kvGet (createTimeEntry [] entryE1).2 ["time", "e1"]
        = some (.timeEntry entryE1) ∧
     kvGet (createTimeEntry [] entryE1).2 ["time_user", "u1", "D", "e1"]
        = some (.ptr "e1") ∧
     kvGet (createTimeEntry [] entryE1).2 ["time_project", "p1", "D", "e1"]
        = some (.ptr "e1")) :=
  C8_amended [] invI1 shS1 entryE1 rfl rfl

/-! ## C5 -/

/-- C5 counterexample: with the email index absent at the fast-path read
(empty store) but present by commit time (a concurrent writer inserted
`storeEmailTaken`), the rejected commit reports the generic message
"Failed to create user: Database error" — not a distinct race-conflict
outcome — refuting the claim. -/
theorem C5_counterexample :
    (kvGet ([] : KV) ["user_email", "a@b.c"]).isSome = false ∧
    createUserCommit storeEmailTaken userU1
      = (.error "Failed to create user: Database error", storeEmailTaken) := by
  exact ⟨rfl, rfl⟩

/-- C5 (amended): `createUser` fails with "Email already exists" when the
fast-path read finds the email index, and a commit rejected by the
email-index-absent precondition throws the generic
"Failed to create user: Database error" — the same generic
database-error outcome as any other commit failure, with no distinct
race-conflict variant; when the index is absent at commit time the commit
succeeds. -/
theorem C5_user_conflict_outcomes (s : KV) (u : User) :
    ((kvGet s ["user_email", u.email]).isSome = true →
      createUser s u = (.error "Email already exists", s)) ∧
    ((kvGet s ["user_email", u.email]).isSome = true →
      createUserCommit s u
        = (.error "Failed to create user: Database error", s)) ∧
    (kvGet s ["user_email", u.email] = none →
      (createUser s u).1 = .ok ()) := by
  refine ⟨fun h => ?_, fun h => ?_, fun h => ?_⟩
  · rw [createUser, if_pos h]
  · obtain ⟨v, hv⟩ := Option.isSome_iff_exists.mp h
    simp [createUserCommit, commitOp, hv]
  · simp [createUser, createUserCommit, commitOp, h]

/-- C5 witness: the amended theorem at the sample user, against the store
where the email is taken and against the empty store. -/
theorem C5_witness :
    createUser storeEmailTaken userU1 = (.error "Email already exists", storeEmailTaken) ∧
    createUserCommit storeEmailTaken userU1
      = (.error "Failed to create user: Database error", storeEmailTaken) ∧
    (createUser [] userU1).1 = .ok () :=
  ⟨(C5_user_conflict_outcomes storeEmailTaken userU1).1 rfl,
   (C5_user_conflict_outcomes storeEmailTaken userU1).2.1 rfl,
   (C5_user_conflict_outcomes [] userU1).2.2 rfl⟩

/-! ## C2 -/

/-- C2 counterexample: on a reachable store with project budget 1000 =
remaining budget and member rate 50, the handler creates the 2-hour entry
with `costImpact` 100, but the project's `remainingBudget` is still 1000
afterwards — `createTimeEntry` commits no budget adjustment — refuting the
claim that the same commit decreases `remainingBudget` by H x R. -/
theorem C2_counterexample :
    (getTimeEntryById runC2.2 "e1").map TimeEntry.costImpact = some 100 ∧
    (getProjectById runC2.2 "p1").map Project.remainingBudget = some 1000 ∧
    (getProjectById storeProjMember "p1").map Project.remainingBudget = some 1000 ∧
    (1000 : ℚ) ≠ 1000 - 2 * 50 := by
  refine ⟨?_, rfl, rfl, by norm_num⟩
  show (some ((2 : ℚ) * 50) : Option ℚ).map id = some 100
  norm_num

/-- C2 (amended): with member rate R, the create-time-entry handler creates
the entry with `costImpact = hours x R`, but leaves every project record —
in particular `remainingBudget` — unchanged: the atomic commit contains no
budget adjustment. -/
theorem C2_cost_impact_no_budget_change (s : KV) (uid pid desc : String)
    (hours : ℚ) (date fid now : String) (m : ProjectMember)
    (hm : getProjectMember s pid uid = some m) :
    (handlerCreateTimeEntry s uid pid desc hours date fid now).1
      = .ok { id := fid, projectId := pid, userId := uid, description := desc,
              hours := hours, costImpact := hours * m.hourlyRate, date := date,
              isActive := false, createdAt := now, updatedAt := now } ∧
    ∀ q, getProjectById
        (handlerCreateTimeEntry s uid pid desc hours date fid now).2 q
      = getProjectById s q := by
  simp only [handlerCreateTimeEntry, hm, createTimeEntry, commitOp_nil_checks,
    List.foldl, applyMut]
  refine ⟨by trivial, fun q => ?_⟩
  unfold getProjectById
  rw [kvGet_set, if_neg (key_ne_of_head_ne _ _ (by decide)),
      kvGet_set, if_neg (key_ne_of_head_ne _ _ (by decide)),
      kvGet_set, if_neg (key_ne_of_head_ne _ _ (by decide))]

/-- C2 witness: the amended theorem on the reachable store with member rate
50 and a 2-hour entry. -/
theorem C2_witness :
    (handlerCreateTimeEntry storeProjMember "u1" "p1" "work" 2 "D" "e1" "T").1
      = .ok { id := "e1", projectId := "p1", userId := "u1",
              description := "work", hours := 2,
              costImpact := 2 * memberU1.hourlyRate, date := "D",
              isActive := false, createdAt := "T", updatedAt := "T" } ∧
    ∀ q, getProjectById
        (handlerCreateTimeEntry storeProjMember "u1" "p1" "work" 2 "D" "e1" "T").2 q
      = getProjectById storeProjMember q :=
  C2_cost_impact_no_budget_change storeProjMember "u1" "p1" "work" 2 "D" "e1" "T"
    memberU1 (by rfl)

/-! ## C1 -/

/-- C1 counterexample: both reads of two concurrent `startTimer` calls for
`u1` run on `storeMemberOnly` and see no active timer; both commits then
succeed — the batch contains no precondition — leaving two ActiveTimer
records for `u1` in the final store, refuting both the singleton invariant
and the claim that the absence check is part of the atomic commit (so that
exactly one of two concurrent calls succeeds). -/
theorem C1_counterexample :
    getActiveTimerByUser storeMemberOnly "u1" = none ∧
    runStart1.1 = .ok { id := "t1", userId := "u1", projectId := "p1",
                        description := "", startedAt := "T1", updatedAt := "T1" } ∧
    runStart2.1 = .ok { id := "t2", userId := "u1", projectId := "p1",
                        description := "", startedAt := "T2", updatedAt := "T2" } ∧
    (activeTimerRecordsOfUser runStart2.2 "u1").length = 2 := by
  exact ⟨rfl, rfl, rfl, rfl⟩

/-- C1 (amended): the timer handler fails with "User already has an active
timer" whenever its prior read finds an active timer through the singleton
index, but the `startTimer` commit itself carries no precondition and
succeeds from every store, so two concurrent calls whose reads precede the
commits can both succeed. -/
theorem C1_timer_check_is_read_only (s : KV) (uid pid desc fid now : String) :
    (∀ t, getActiveTimerByUser s uid = some t →
      handlerStartTimer s uid pid desc fid now
        = (.error "User already has an active timer", s)) ∧
    (startTimer s uid pid desc fid now).1
      = .ok { id := fid, userId := uid, projectId := pid,
              description := desc, startedAt := now, updatedAt := now } := by
  constructor
  · intro t ht
    unfold handlerStartTimer
    rw [ht]
  · rfl

/-- C1 witness: the amended theorem applied on the store left by the first
start (handler rejects) and on the membership-only store (commit
succeeds). -/
theorem C1_witness :
    handlerStartTimer runStart1.2 "u1" "p1" "d" "t9" "T9"
      = (.error "User already has an active timer", runStart1.2) ∧
    (startTimer storeMemberOnly "u1" "p1" "" "t1" "T1").1
      = .ok { id := "t1", userId := "u1", projectId := "p1",
              description := "", startedAt := "T1", updatedAt := "T1" } :=
  ⟨(C1_timer_check_is_read_only runStart1.2 "u1" "p1" "d" "t9" "T9").1
      { id := "t1", userId := "u1", projectId := "p1", description := "",
        startedAt := "T1", updatedAt := "T1" } (by rfl),
   (C1_timer_check_is_read_only storeMemberOnly "u1" "p1" "" "t1" "T1").2⟩

/-! ## C7 -/

/-- C7: after a `stopTimer` whose member lookup succeeds, the single
atomic commit has created the time entry (readable by id) and deleted the
ActiveTimer record, its user-singleton index and its project index; no
stale singleton entry remains, so a subsequent `startTimer` for the same
user is accepted. -/
theorem C7_stop_timer_atomic_cleanup (s : KV) (timer : ActiveTimer)
    (hours : ℚ) (fid now desc2 fid2 now2 : String) (m : ProjectMember)
    (hm : kvGet s ["project_member", timer.projectId, timer.userId]
      = some (.member m)) :
    (stopTimer s timer hours fid now).1
      = .ok (stopEntry timer hours fid now m.hourlyRate) ∧
    kvGet (stopTimer s timer hours fid now).2
      ["active_timer_user", timer.userId] = none ∧
    kvGet (stopTimer s timer hours fid now).2
      ["active_timer", timer.id] = none ∧
    kvGet (stopTimer s timer hours fid now).2
      ["active_timer_project", timer.projectId, timer.id] = none ∧
    getTimeEntryById (stopTimer s timer hours fid now).2 fid
      = some (stopEntry timer hours fid now m.hourlyRate) ∧
    (handlerStartTimer (stopTimer s timer hours fid now).2
        timer.userId timer.projectId desc2 fid2 now2).1
      = .ok { id := fid2, userId := timer.userId, projectId := timer.projectId,
              description := desc2, startedAt := now2, updatedAt := now2 } := by
  have hB : stopTimer s timer hours fid now
      = (.ok (stopEntry timer hours fid now m.hourlyRate),
         stopStore s timer hours fid now m.hourlyRate) := by
    simp only [stopTimer, getProjectMember, hm, commitOp_nil_checks,
      List.foldl, applyMut, stopStore, stopEntry]
  have hA : kvGet (stopStore s timer hours fid now m.hourlyRate)
      ["active_timer_user", timer.userId] = none := by
    unfold stopStore
    rw [kvGet_delete, if_neg (key_ne_of_head_ne _ _ (by decide)),
        kvGet_delete, if_pos rfl]
  have hMem : kvGet (stopStore s timer hours fid now m.hourlyRate)
      ["project_member", timer.projectId, timer.userId]
      = kvGet s ["project_member", timer.projectId, timer.userId] := by
    unfold stopStore
    rw [kvGet_delete, if_neg (key_ne_of_head_ne _ _ (by decide)),
        kvGet_delete, if_neg (key_ne_of_head_ne _ _ (by decide)),
        kvGet_delete, if_neg (key_ne_of_head_ne _ _ (by decide)),
        kvGet_set, if_neg (key_ne_of_head_ne _ _ (by decide)),
        kvGet_set, if_neg (key_ne_of_head_ne _ _ (by decide)),
        kvGet_set, if_neg (key_ne_of_head_ne _ _ (by decide))]
  have hT : kvGet (stopStore s timer hours fid now m.hourlyRate) ["time", fid]
      = some (.timeEntry (stopEntry timer hours fid now m.hourlyRate)) := by
    unfold stopStore
    rw [kvGet_delete, if_neg (key_ne_of_head_ne _ _ (by decide)),
        kvGet_delete, if_neg (key_ne_of_head_ne _ _ (by decide)),
        kvGet_delete, if_neg (key_ne_of_head_ne _ _ (by decide)),
        kvGet_set, if_neg (key_ne_of_head_ne _ _ (by decide)),
        kvGet_set, if_neg (key_ne_of_head_ne _ _ (by decide)),
        kvGet_set, if_pos rfl]
  rw [hB]
  refine ⟨rfl, hA, ?_, ?_, ?_, ?_⟩
  · unfold stopStore
    rw [kvGet_delete, if_neg (key_ne_of_head_ne _ _ (by decide)),
        kvGet_delete, if_neg (key_ne_of_head_ne _ _ (by decide)),
        kvGet_delete, if_pos rfl]
  · unfold stopStore
    rw [kvGet_delete, if_pos rfl]
  · unfold getTimeEntryById
    rw [hT]
  · unfold handlerStartTimer getActiveTimerByUser
    rw [hA]
    unfold getProjectMember
    rw [hMem, hm]
    rfl

/-- C7 witness: stopping timer `t1` for three hours on the store the first
start produced; the timer keys are gone and a new start is accepted. -/
theorem C7_witness :
    (stopTimer runStart1.2 timerT1 3 "e9" "T3").1
      = .ok (stopEntry timerT1 3 "e9" "T3" memberU1.hourlyRate) ∧
    kvGet (stopTimer runStart1.2 timerT1 3 "e9" "T3").2
      ["active_timer_user", "u1"] = none ∧
    kvGet (stopTimer runStart1.2 timerT1 3 "e9" "T3").2
      ["active_timer", "t1"] = none ∧
    kvGet (stopTimer runStart1.2 timerT1 3 "e9" "T3").2
      ["active_timer_project", "p1", "t1"] = none ∧
    getTimeEntryById (stopTimer runStart1.2 timerT1 3 "e9" "T3").2 "e9"
      = some (stopEntry timerT1 3 "e9" "T3" memberU1.hourlyRate) ∧
    (handlerStartTimer (stopTimer runStart1.2 timerT1 3 "e9" "T3").2
        "u1" "p1" "d" "t2" "T4").1
      = .ok { id := "t2", userId := "u1", projectId := "p1",
              description := "d", startedAt := "T4", updatedAt := "T4" } :=
  C7_stop_timer_atomic_cleanup runStart1.2 timerT1 3 "e9" "T3" "d" "t2" "T4"
    memberU1 (by rfl)

/-! ## C9 -/

/-- C9: when the project exists with profit sharing enabled and the scan
over its `time_project` index is empty — the only way the code's total
contribution measure `totalHours` is 0 — `distributeProjectProfits` fails
with the no-time-entries precondition error before its commit and returns
the store unchanged: no earnings, profit-share or budget-transaction
record is written and no project field is modified. -/
theorem C9_distribute_zero_contribution (s : KV) (pid : String)
    (freshIds : List String) (ppid now : String) (p : Project)
    (hp : getProjectById s pid = some p)
    (hs : p.profitSharingEnabled = true)
    (hscan : kvScan s ["time_project", pid] = []) :
    distributeProjectProfits s pid freshIds ppid now
      = (.error "No time entries found", s) := by
  simp [distributeProjectProfits, hp, hs, hscan]

/-- C9 witness: the theorem on the reachable store holding `projP1`
(sharing enabled) and its member but no time entries. -/
theorem C9_witness :
    distributeProjectProfits storeProjMember "p1" ["x1"] "pp" "T"
      = (.error "No time entries found", storeProjMember) :=
  C9_distribute_zero_contribution storeProjMember "p1" ["x1"] "pp" "T" projP1
    (by rfl) (by rfl) (by rfl)

/-! ## C4 -/

/-- C4 (the code at the failing input): on the project with 6-hour and
4-hour entries (cost impacts 1200/800, sharing percentage 50%, intended
pool 1000 and shares 600/400), the scan over `time_project` yields the
pointer index records, so the summed contribution measure is `NaN` and the
run aborts with a `TypeError` from the undefined `userId` key part instead
of distributing shares 600 and 400 summing to 1000. -/
theorem C4_distribution_nan :
    distributeProjectProfits storeC4 "p1" ["x1", "x2"] "pp" "T"
      = (.error "TypeError: invalid KV key part", storeC4) ∧
    (kvScan storeC4 ["time_project", "p1"]).foldl
        (fun acc v => jsAdd acc (hoursOf v)) (.num 0) = JsNum.nan ∧
    kvScan storeC4 ["time_project", "p1"] = [.ptr "ea", .ptr "eb"] := by
  exact ⟨rfl, rfl, rfl⟩

/-! ## C3 -/

/-- C3 (the code at the failing input): on the reachable state obtained by
creating project `p1` (budget 1000, remaining 1000), adding the rate-50
member, creating a 2-hour entry through the handler and completing it,
`remainingBudget` is 900 while no BudgetTransaction record was ever
written (the ledger sum is 0), so remainingBudget differs from
budget minus the transaction sum; the update came from
`updateProjectBudget`'s unguarded read-then-write of the delta. -/
theorem C3_ledger_equation_broken :
    (getProjectById runComplete.2 "p1").map Project.budget = some 1000 ∧
    (getProjectById runComplete.2 "p1").map Project.remainingBudget = some 900 ∧
    budgetTxSum runComplete.2 "p1" = 0 ∧
    (900 : ℚ) ≠ 1000 - 0 := by
  refine ⟨rfl, ?_, rfl, by norm_num⟩
  show (some ((1000 : ℚ) + -(2 * 50)) : Option ℚ) = some 900
  norm_num

/-! ## C6 -/

/-- C6 (the code at the failing input): completing entry `e1` after the
member rate rose to 80 returns the updated entry with recomputed cost
impact 160 and debits the project budget (1000 to 840), but the update is
written under the key prefix `timeEntries` while `getTimeEntryById` reads
`time`, so the reader still sees the stale pending entry (cost impact 100,
timestamp "T"); a missing id fails with "Time entry not found". -/
theorem C6_complete_write_invisible :
    runComplete80.1.map TimeEntry.costImpact = .ok 160 ∧
    (getProjectById runComplete80.2 "p1").map Project.remainingBudget
      = some 840 ∧
    (getTimeEntryById runComplete80.2 "e1").map TimeEntry.costImpact
      = some 100 ∧
    (getTimeEntryById runComplete80.2 "e1").map TimeEntry.updatedAt
      = some "T" ∧
    (kvGet runComplete80.2 ["timeEntries", "e1"]).isSome = true ∧
    completeTimeEntry storeAfterEntry "zz" "T9"
      = (.error "Time entry not found", storeAfterEntry) := by
  refine ⟨?_, ?_, ?_, rfl, rfl, rfl⟩
  · show (Except.ok ((2 : ℚ) * 80) : Except String ℚ) = .ok 160
    norm_num
  · show (some ((1000 : ℚ) + -(2 * 80)) : Option ℚ) = some 840
    norm_num
  · show (some ((2 : ℚ) * 50) : Option ℚ) = some 100
    norm_num

end CyberApi
